import Mathlib

set_option maxRecDepth 8192

/-!
Verification of the neverclass SA-MP query client.

The development shallowly embeds the query transaction engine of
`src/sampquery.ts` (request-packet construction, option defaulting, the
socket's message handler with its four opcode-specific payload decoders)
together with the binary stream codec it uses.  The codec itself
(`./bitstream`) is not part of the available sources, so its reader and
writer operations are modelled from the specification (§3, §4.1); every
other definition follows `src/sampquery.ts` line by line.
-/

/-- Modelled from the spec: the codec's internal fault conditions
(`TruncatedBuffer`, `InvalidSlice`, spec §4.1/§7). -/
inductive CodecError
  | truncatedBuffer
  | invalidSlice
  deriving DecidableEq, Repr

/-- Modelled from the spec: the Binary Stream Codec's reader (`./bitstream`,
which is not under the available sources).  Spec §3/§4.1 describe a
cursor-based reader over a byte buffer; the cursor is represented here by the
list of bytes remaining after it (the read offset is the initial length minus
`rem.length`).  Reading past the end fails with `TruncatedBuffer`. -/
structure BitStream where
  rem : List Nat
  deriving DecidableEq, Repr

/-- Modelled from the spec: read one unsigned 8-bit integer, consuming 1 byte,
failing with `TruncatedBuffer` when no byte remains (spec §4.1). -/
def BitStream.readUInt8 : BitStream → Except CodecError (Nat × BitStream)
  | ⟨[]⟩ => .error .truncatedBuffer
  | ⟨b :: rest⟩ => .ok (b, ⟨rest⟩)

/-- Modelled from the spec: read one unsigned 16-bit integer as 2 bytes,
little-endian (spec §4.1: "in the same byte order used when the protocol's own
fields were written (little-endian)"). -/
def BitStream.readUInt16 (bs : BitStream) : Except CodecError (Nat × BitStream) := do
  let (b0, bs) ← bs.readUInt8
  let (b1, bs) ← bs.readUInt8
  pure (b0 + 256 * b1, bs)

/-- Modelled from the spec: read one unsigned 32-bit integer as 4 bytes,
little-endian (spec §4.1). -/
def BitStream.readUInt32 (bs : BitStream) : Except CodecError (Nat × BitStream) := do
  let (b0, bs) ← bs.readUInt8
  let (b1, bs) ← bs.readUInt8
  let (b2, bs) ← bs.readUInt8
  let (b3, bs) ← bs.readUInt8
  pure (b0 + 256 * b1 + 65536 * b2 + 16777216 * b3, bs)

/-- Modelled from the spec: read a boolean: one byte, true iff nonzero
(spec §4.1). -/
def BitStream.readBoolean (bs : BitStream) : Except CodecError (Bool × BitStream) := do
  let (b, bs) ← bs.readUInt8
  pure (b != 0, bs)

/-- Modelled from the spec: read raw bytes of length `n`: returns exactly `n`
bytes and advances by `n`, failing with `TruncatedBuffer` if unavailable
(spec §4.1). -/
def BitStream.readBytes (bs : BitStream) (n : Nat) : Except CodecError (List Nat × BitStream) :=
  if n ≤ bs.rem.length then .ok (bs.rem.take n, ⟨bs.rem.drop n⟩) else .error .truncatedBuffer

/-- Modelled from the spec: slice from absolute offset `k`: a new reader over
the same storage from `k` onward with a fresh cursor, failing with
`InvalidSlice` if `k` exceeds the total length (spec §4.1).  The engine only
ever slices a freshly created reader (`BitStream.from(message).slice(11)`),
whose cursor is still 0, which is the case modelled here. -/
def BitStream.slice (bs : BitStream) (k : Nat) : Except CodecError BitStream :=
  if k ≤ bs.rem.length then .ok ⟨bs.rem.drop k⟩ else .error .invalidSlice

/-- Modelled from the spec: the windows-1251 mapping of the external
text-decoding collaborator (§6) for bytes 0x80–0xBF (the standard CP1251
table); bytes below 0x80 are ASCII and bytes 0xC0–0xFF map linearly onto
U+0410–U+044F. -/
def cp1251High : List Nat :=
  [0x402, 0x403, 0x201A, 0x453, 0x201E, 0x2026, 0x2020, 0x2021,
   0x20AC, 0x2030, 0x409, 0x2039, 0x40A, 0x40C, 0x40B, 0x40F,
   0x452, 0x2018, 0x2019, 0x201C, 0x201D, 0x2022, 0x2013, 0x2014,
   0x98, 0x2122, 0x459, 0x203A, 0x45A, 0x45C, 0x45B, 0x45F,
   0xA0, 0x40E, 0x45E, 0x408, 0xA4, 0x490, 0xA6, 0xA7,
   0x401, 0xA9, 0x404, 0xAB, 0xAC, 0xAD, 0xAE, 0x407,
   0xB0, 0xB1, 0x406, 0x456, 0x491, 0xB5, 0xB6, 0xB7,
   0x451, 0x2116, 0x454, 0xBB, 0x458, 0x405, 0x455, 0x457]

/-- One byte under the windows-1251 codepage. -/
def cp1251Char (b : Nat) : Char :=
  if b < 0x80 then Char.ofNat b
  else if b < 0xC0 then Char.ofNat (cp1251High.getD (b - 0x80) 0xFFFD)
  else Char.ofNat (b + 0x350)

/-- `decodeWin1251String` of `src/sampquery.ts` line 14:
`iconv.decode(str, 'win1251')`, the windows-1251 interpretation of the raw
bytes. -/
def decodeWin1251String (bytes : List Nat) : String :=
  ⟨bytes.map cp1251Char⟩

/-- `bsReadCP1251String` of `src/sampquery.ts` lines 15–16: read `len` raw
bytes from the stream and decode them as windows-1251 text. -/
def bsReadCP1251String (bs : BitStream) (len : Nat) : Except CodecError (String × BitStream) := do
  let (bytes, bs) ← bs.readBytes len
  pure (decodeWin1251String bytes, bs)

/-- The four opcodes (`SampQueryOpcode`, `src/sampquery.ts` line 37). -/
inductive Opcode
  | i
  | r
  | d
  | c
  deriving DecidableEq, Repr

/-- `opcode.charCodeAt(0)` for each opcode character. -/
def Opcode.code : Opcode → Nat
  | .i => 105
  | .r => 114
  | .d => 100
  | .c => 99

/-- `SampQueryInfoResult` (`src/sampquery.ts` lines 54–61). -/
structure SampQueryInfoResult where
  serverName : String
  gameModeName : String
  players : Nat
  maxPlayers : Nat
  language : String
  closed : Bool
  deriving DecidableEq, Repr

/-- `SampQueryPlayer` (`src/sampquery.ts` lines 47–52). -/
structure SampQueryPlayer where
  id : Nat
  name : String
  score : Nat
  ping : Nat
  deriving DecidableEq, Repr

/-- The four reply result shapes of the engine; a rule of the `r` result is
the pair (name, value). -/
inductive QueryResult
  | info (res : SampQueryInfoResult)
  | rules (rs : List (String × String))
  | playersDetailed (ps : List SampQueryPlayer)
  | players (ps : List (String × Nat))
  deriving DecidableEq, Repr

/-- Rejection reasons the message handler can settle the transaction with:
`invalidMessage` is the "invalid message from socket" rejection for replies
shorter than 11 bytes (what the spec's taxonomy calls `MalformedResponse`),
and `codecFault e` is a rejection whose reason is the raw codec error `e`
caught by the handler's try/catch (`src/sampquery.ts` lines 236–238 reject the
caught error object unchanged). -/
inductive SampError
  | invalidMessage
  | codecFault (e : CodecError)
  deriving DecidableEq, Repr

/-- The `i` (info) branch of the message handler (`src/sampquery.ts`
lines 182–196): bool closed, uint16 players, uint16 maxPlayers, then three
uint32-length-prefixed windows-1251 text fields. -/
def decodeInfo (bs : BitStream) : Except CodecError QueryResult := do
  let (closed, bs) ← bs.readBoolean
  let (players, bs) ← bs.readUInt16
  let (maxPlayers, bs) ← bs.readUInt16
  let (n1, bs) ← bs.readUInt32
  let (serverName, bs) ← bsReadCP1251String bs n1
  let (n2, bs) ← bs.readUInt32
  let (gameModeName, bs) ← bsReadCP1251String bs n2
  let (n3, bs) ← bs.readUInt32
  let (language, _) ← bsReadCP1251String bs n3
  pure (.info ⟨serverName, gameModeName, players, maxPlayers, language, closed⟩)

/-- The loop body of the `r` (rules) branch (`src/sampquery.ts`
lines 200–207), iterated `k` more times: each iteration reads a uint8-length
name and a uint8-length value.  The count was read once before the loop. -/
def decodeRulesLoop : Nat → List (String × String) → BitStream →
    Except CodecError (List (String × String) × BitStream)
  | 0, acc, bs => .ok (acc, bs)
  | k + 1, acc, bs => do
    let (nlen, bs) ← bs.readUInt8
    let (nameBytes, bs) ← bs.readBytes nlen
    let (vlen, bs) ← bs.readUInt8
    let (valBytes, bs) ← bs.readBytes vlen
    decodeRulesLoop k
      (acc ++ [(decodeWin1251String nameBytes, decodeWin1251String valBytes)]) bs

/-- The `r` (rules) branch of the message handler (`src/sampquery.ts`
lines 197–208): `const count = bytes.readUInt16()` once, then the loop. -/
def decodeRules (bs : BitStream) : Except CodecError QueryResult := do
  let (count, bs) ← bs.readUInt16
  let (rs, _) ← decodeRulesLoop count [] bs
  pure (.rules rs)

/-- The `d` (players-detailed) loop of the message handler (`src/sampquery.ts`
lines 210–222), embedded faithfully: the source loop is
`for (let i = 0; i < bytes.readUInt16(); i++)`, so the uint16 is re-read from
the stream at every condition check, before each record and once more after
the last.  `fuel` is a structural bound only; every continuing iteration
consumes at least 12 bytes, so the engine's call (fuel = remaining length + 1)
never exhausts it. -/
def decodeDetailedLoop : Nat → Nat → List SampQueryPlayer → BitStream →
    Except CodecError (List SampQueryPlayer × BitStream)
  | 0, _, _, _ => .error .truncatedBuffer
  | fuel + 1, i, acc, bs => do
    let (cond, bs) ← bs.readUInt16
    if i < cond then
      let (id, bs) ← bs.readUInt8
      let (nlen, bs) ← bs.readUInt8
      let (nameBytes, bs) ← bs.readBytes nlen
      let (score, bs) ← bs.readUInt32
      let (ping, bs) ← bs.readUInt32
      decodeDetailedLoop fuel (i + 1)
        (acc ++ [⟨id, decodeWin1251String nameBytes, score, ping⟩]) bs
    else
      .ok (acc, bs)

/-- The `d` (players-detailed) branch of the message handler
(`src/sampquery.ts` lines 209–223). -/
def decodeDetailed (bs : BitStream) : Except CodecError QueryResult := do
  let (ps, _) ← decodeDetailedLoop (bs.rem.length + 1) 0 [] bs
  pure (.playersDetailed ps)

/-- The `c` (players) loop of the message handler (`src/sampquery.ts`
lines 226–233): like the `d` loop, the uint16 is re-read at every condition
check. -/
def decodePlayersLoop : Nat → Nat → List (String × Nat) → BitStream →
    Except CodecError (List (String × Nat) × BitStream)
  | 0, _, _, _ => .error .truncatedBuffer
  | fuel + 1, i, acc, bs => do
    let (cond, bs) ← bs.readUInt16
    if i < cond then
      let (nlen, bs) ← bs.readUInt8
      let (nameBytes, bs) ← bs.readBytes nlen
      let (score, bs) ← bs.readUInt32
      decodePlayersLoop fuel (i + 1) (acc ++ [(decodeWin1251String nameBytes, score)]) bs
    else
      .ok (acc, bs)

/-- The `c` (players) branch of the message handler (`src/sampquery.ts`
lines 224–234). -/
def decodePlayers (bs : BitStream) : Except CodecError QueryResult := do
  let (ps, _) ← decodePlayersLoop (bs.rem.length + 1) 0 [] bs
  pure (.players ps)

/-- The opcode dispatch of the message handler (`src/sampquery.ts`
lines 182–235). -/
def decodeBody (op : Opcode) (bs : BitStream) : Except CodecError QueryResult :=
  match op with
  | .i => decodeInfo bs
  | .r => decodeRules bs
  | .d => decodeDetailed bs
  | .c => decodePlayers bs

/-- The payload decoding performed inside the handler's try block
(`src/sampquery.ts` lines 181–235): slice away the 11-byte echo header, then
dispatch on the opcode. -/
def decodePayload (op : Opcode) (message : List Nat) : Except CodecError QueryResult := do
  let bytes ← (BitStream.mk message).slice 11
  decodeBody op bytes

/-- The socket's `message` handler (`src/sampquery.ts` lines 176–239).  The
first component is the settlement of the transaction's promise; the second
records whether `socket.close()` was called during the handler.  Faithful to
the source: a message shorter than 11 bytes is rejected with the
invalid-message error *before* the `socket.close()` on line 180 is reached
(so the socket stays open on that path); otherwise the socket is closed and
the payload is decoded, any thrown codec error being caught on lines 236–238
and passed to `reject` unchanged. -/
def handleMessage (op : Opcode) (message : List Nat) : Except SampError QueryResult × Bool :=
  if message.length < 11 then (.error .invalidMessage, false)
  else
    match decodePayload op message with
    | .ok res => (.ok res, true)
    | .error e => (.error (.codecFault e), true)

/-- JavaScript `ip.split('.')` on the character list: splits at every dot,
keeping empty parts, and yields one (possibly empty) part even for the empty
string, exactly as `String.prototype.split` with a one-character separator. -/
def splitDotChars : List Char → List (List Char)
  | [] => [[]]
  | ch :: rest =>
    if ch = '.' then [] :: splitDotChars rest
    else
      match splitDotChars rest with
      | [] => [[ch]]
      | part :: parts => (ch :: part) :: parts

/-- JavaScript `ip.split('.')` (`src/sampquery.ts` line 158). -/
def jsSplitDot (s : String) : List String :=
  (splitDotChars s.data).map fun cs => ⟨cs⟩

/-- Decimal digit-string value: `some` of the value when every character is a
decimal digit, `none` otherwise. -/
def decDigitsAux : List Char → Nat → Option Nat
  | [], acc => some acc
  | ch :: rest, acc =>
    if 48 ≤ ch.toNat ∧ ch.toNat ≤ 57 then decDigitsAux rest (acc * 10 + (ch.toNat - 48))
    else none

/-- JavaScript numeric coercion `+v` as used on each dotted-quad part
(`src/sampquery.ts` line 159), on the strings relevant here: the empty string
coerces to 0, a decimal digit string to its value; anything else is NaN,
whose effect on the codec's uint8 writer is not defined by the spec and is
modelled as `none`. -/
def jsNumber (s : String) : Option Nat :=
  match s.data with
  | [] => some 0
  | cs => decDigitsAux cs 0

/-- `+v` applied to every part of `ip.split('.')` in order, as the request
building loop does; `none` as soon as one part is NaN. -/
def jsNumbers : List String → Option (List Nat)
  | [] => some []
  | s :: rest =>
    match jsNumber s, jsNumbers rest with
    | some v, some vs => some (v :: vs)
    | _, _ => none

/-- Modelled from the spec: the codec's write side appends a fixed-length
ASCII string as raw bytes (spec §4.1); used for `bs.writeString('SAMP')`. -/
def writeStringBytes (s : String) : List Nat :=
  s.data.map Char.toNat

/-- The request packet built by `request` (`src/sampquery.ts` lines 156–162):
`writeString('SAMP')`; one `writeUInt8(+v)` per dot-separated part of the
address; `writeUInt8(port & 0xFF)`; `writeUInt8(port >> 8 & 0xFF)`;
`writeUInt8(opcode.charCodeAt(0))`.  For the ports concerned (below 2^31) the
JavaScript bit operations coincide with `port % 256` and `port / 256 % 256`.
No validation of the address is performed anywhere in the source. -/
def buildRequest (ip : String) (port : Nat) (op : Opcode) : Option (List Nat) :=
  match jsNumbers (jsSplitDot ip) with
  | none => none
  | some octets =>
    some (writeStringBytes "SAMP" ++ octets ++ [port % 256, port / 256 % 256, op.code])

/-- A spec-side parser for the request packet, per the claimed round-trip
shape: 4 raw bytes (magic), four uint8 octets, uint8 port-low, uint8
port-high, uint8 opcode byte, all read with the modelled codec. -/
def parseRequest (pkt : List Nat) :
    Except CodecError (List Nat × Nat × Nat × Nat × Nat × Nat × Nat × Nat) := do
  let bs := BitStream.mk pkt
  let (magic, bs) ← bs.readBytes 4
  let (o1, bs) ← bs.readUInt8
  let (o2, bs) ← bs.readUInt8
  let (o3, bs) ← bs.readUInt8
  let (o4, bs) ← bs.readUInt8
  let (lo, bs) ← bs.readUInt8
  let (hi, bs) ← bs.readUInt8
  let (opb, _) ← bs.readUInt8
  pure (magic, o1, o2, o3, o4, lo, hi, opb)

/-- The merge of a call-site option with the instance option, as performed by
the destructuring defaults of `request` (`src/sampquery.ts` lines 133–139):
the instance option is used only when the call-site value is undefined
(`none`). -/
def mergeOpt {α : Type} (inst call : Option α) : Option α :=
  match call with
  | some v => some v
  | none => inst

/-- The effective address after `if (!ip) ip = '127.0.0.1'`
(`src/sampquery.ts` line 140): the merged option, with any falsy value
(undefined or the empty string) replaced by the loopback default. -/
def effectiveIp (instIp callIp : Option String) : String :=
  match mergeOpt instIp callIp with
  | none => "127.0.0.1"
  | some s => if s = "" then "127.0.0.1" else s

/-- The effective port after `if (!port) port = 7777` (`src/sampquery.ts`
line 141): the merged option, with any falsy value (undefined or 0) replaced
by 7777. -/
def effectivePort (instPort callPort : Option Nat) : Nat :=
  match mergeOpt instPort callPort with
  | none => 7777
  | some p => if p = 0 then 7777 else p

/-- The effective timeout after `if (!timeout) timeout = 2000`
(`src/sampquery.ts` line 142): the merged option, with any falsy value
(undefined or 0) replaced by 2000 ms. -/
def effectiveTimeout (instT callT : Option Nat) : Nat :=
  match mergeOpt instT callT with
  | none => 2000
  | some t => if t = 0 then 2000 else t

/-- Little-endian 2-byte encoding, for stating reply layouts. -/
def enc16 (n : Nat) : List Nat :=
  [n % 256, n / 256 % 256]

/-- Little-endian 4-byte encoding, for stating reply layouts. -/
def enc32 (n : Nat) : List Nat :=
  [n % 256, n / 256 % 256, n / 65536 % 256, n / 16777216 % 256]

theorem exceptBind_ok {α β ε : Type} (a : α) (f : α → Except ε β) :
    (Except.ok a >>= f : Except ε β) = f a := rfl

theorem exceptBind_err {α β ε : Type} (e : ε) (f : α → Except ε β) :
    (Except.error e >>= f : Except ε β) = .error e := rfl

theorem readUInt8_cons (b : Nat) (rest : List Nat) :
    BitStream.readUInt8 ⟨b :: rest⟩ = .ok (b, ⟨rest⟩) := rfl

theorem readUInt16_cons (b0 b1 : Nat) (rest : List Nat) :
    BitStream.readUInt16 ⟨b0 :: b1 :: rest⟩ = .ok (b0 + 256 * b1, ⟨rest⟩) := rfl

theorem readUInt32_cons (b0 b1 b2 b3 : Nat) (rest : List Nat) :
    BitStream.readUInt32 ⟨b0 :: b1 :: b2 :: b3 :: rest⟩ =
      .ok (b0 + 256 * b1 + 65536 * b2 + 16777216 * b3, ⟨rest⟩) := rfl

theorem readBoolean_cons (b : Nat) (rest : List Nat) :
    BitStream.readBoolean ⟨b :: rest⟩ = .ok (b != 0, ⟨rest⟩) := rfl

theorem readBytes_exact (L rest : List Nat) :
    BitStream.readBytes ⟨L ++ rest⟩ L.length = .ok (L, ⟨rest⟩) := by
  simp [BitStream.readBytes, List.take_left, List.drop_left]

theorem bsReadCP1251_exact (L rest : List Nat) :
    bsReadCP1251String ⟨L ++ rest⟩ L.length = .ok (decodeWin1251String L, ⟨rest⟩) := by
  simp [bsReadCP1251String, readBytes_exact, exceptBind_ok]

theorem readUInt16_enc16 (n : Nat) (rest : List Nat) (h : n < 65536) :
    BitStream.readUInt16 ⟨enc16 n ++ rest⟩ = .ok (n, ⟨rest⟩) := by
  simp only [enc16, List.cons_append, List.nil_append, readUInt16_cons]
  congr 1
  congr 1
  omega

theorem readUInt32_enc32 (n : Nat) (rest : List Nat) (h : n < 4294967296) :
    BitStream.readUInt32 ⟨enc32 n ++ rest⟩ = .ok (n, ⟨rest⟩) := by
  simp only [enc32, List.cons_append, List.nil_append, readUInt32_cons]
  congr 1
  congr 1
  omega

/-- C1: the claim states that the `d` (players-detailed) decoder reads the
uint16 count exactly once and then reads `count` records.  The source
(`src/sampquery.ts` line 211) instead re-reads a uint16 at every loop
condition check, so on this well-formed count=1 reply — count 1, then one
record (id 5, name "AB", score 7, ping 9) — the second condition check runs
past the end of the payload and the transaction is rejected with the codec's
truncation fault instead of resolving to the single record. -/
theorem c1_detailed_wellformed_reply_rejected :
    handleMessage Opcode.d
      (List.replicate 11 0 ++ [1, 0, 5, 2, 65, 66, 7, 0, 0, 0, 9, 0, 0, 0]) =
      (.error (.codecFault .truncatedBuffer), true) := rfl

/-- C2: on the too-short-reply path the handler returns from `reject` before
ever reaching `socket.close()` (and the timeout has already been cleared), so
this terminal path releases the socket zero times, violating the
exactly-once release property: here a 10-byte datagram terminates the
transaction with the invalid-message rejection while the close flag stays
`false`. -/
theorem c2_short_reply_leaves_socket_open :
    handleMessage Opcode.i (List.replicate 10 0) = (.error .invalidMessage, false) := rfl

/-- C3 counterexample: an 11-byte reply (empty payload) for opcode `i` makes
the decoder fault with `TruncatedBuffer`; the handler's catch rejects with
that raw codec error, which is a different rejection than the
invalid-message (`MalformedResponse`) error — so the codec fault is exactly
what reaches the caller, refuting "re-surfaced as MalformedResponse and
never propagated". -/
theorem c3_codec_fault_reaches_caller :
    handleMessage Opcode.i (List.replicate 11 0) =
      (.error (.codecFault .truncatedBuffer), true) ∧
    SampError.codecFault .truncatedBuffer ≠ SampError.invalidMessage := ⟨rfl, by decide⟩

/-- C3 (amended): whenever payload decoding of a long-enough reply faults,
the handler's try/catch always catches the codec fault and fails the
transaction by rejecting with that raw codec error (the socket having been
closed first); the fault never escapes as an unhandled exception, but it is
not converted into the invalid-message (`MalformedResponse`) rejection. -/
theorem c3_codec_faults_always_caught (op : Opcode) (msg : List Nat) (e : CodecError)
    (hlen : 11 ≤ msg.length) (hdec : decodePayload op msg = .error e) :
    handleMessage op msg = (.error (.codecFault e), true) := by
  unfold handleMessage
  rw [if_neg (by omega), hdec]

theorem c3_codec_faults_always_caught_witness :
    11 ≤ (List.replicate 11 0).length ∧
    handleMessage Opcode.i (List.replicate 11 0) =
      (.error (.codecFault .truncatedBuffer), true) :=
  ⟨by decide, c3_codec_faults_always_caught Opcode.i (List.replicate 11 0)
    CodecError.truncatedBuffer (by decide) rfl⟩

/-- C4 counterexample: the address "1.2.3" has only three dot-separated
parts, yet the request builder raises no error at all: it produces a 10-byte
packet (one byte per part) which the engine then sends — there is no
`InvalidArgument` failure before network I/O. -/
theorem c4_three_part_address_builds_packet :
    (jsSplitDot "1.2.3").length = 3 ∧
    buildRequest "1.2.3" 7777 Opcode.i = some [83, 65, 77, 80, 1, 2, 3, 97, 30, 105] ∧
    [83, 65, 77, 80, 1, 2, 3, 97, 30, 105].length = 10 := by decide

/-- C4 (amended): `request` performs no validation of the address: whenever
every dot-separated part coerces to a number, the packet is built — with one
octet byte per part, hence 7 + n bytes for n parts — and handed to the
socket, so a dotted-quad with the wrong number of parts yields a wrong-length
packet that is sent, never an `InvalidArgument` failure before I/O. -/
theorem c4_no_address_validation (ip : String) (port : Nat) (op : Opcode)
    (octets : List Nat) (h : jsNumbers (jsSplitDot ip) = some octets) :
    buildRequest ip port op =
      some (writeStringBytes "SAMP" ++ octets ++ [port % 256, port / 256 % 256, op.code]) ∧
    (writeStringBytes "SAMP" ++ octets ++ [port % 256, port / 256 % 256, op.code]).length =
      7 + octets.length := by
  constructor
  · unfold buildRequest
    rw [h]
  · have hw : writeStringBytes "SAMP" = [83, 65, 77, 80] := rfl
    rw [hw]
    simp [List.length_append]
    omega

theorem c4_no_address_validation_witness :
    jsNumbers (jsSplitDot "1.2.3") = some [1, 2, 3] ∧
    (buildRequest "1.2.3" 7777 Opcode.i =
      some (writeStringBytes "SAMP" ++ [1, 2, 3] ++
        [7777 % 256, 7777 / 256 % 256, Opcode.i.code]) ∧
    (writeStringBytes "SAMP" ++ [1, 2, 3] ++
      [7777 % 256, 7777 / 256 % 256, Opcode.i.code]).length = 7 + [1, 2, 3].length) :=
  ⟨by decide, c4_no_address_validation "1.2.3" 7777 Opcode.i [1, 2, 3] (by decide)⟩

/-- C6: every reply datagram shorter than 11 bytes is rejected by the handler
with the invalid-message error (the spec's `MalformedResponse`), for every
opcode: the length check on `src/sampquery.ts` line 179 precedes the opcode
dispatch. -/
theorem c6_short_reply_malformed (op : Opcode) (msg : List Nat) (h : msg.length < 11) :
    (handleMessage op msg).1 = .error .invalidMessage := by
  unfold handleMessage
  rw [if_pos h]

theorem c6_short_reply_malformed_witness :
    (List.replicate 5 0).length < 11 ∧
    (handleMessage Opcode.r (List.replicate 5 0)).1 = .error .invalidMessage :=
  ⟨by decide, c6_short_reply_malformed Opcode.r (List.replicate 5 0) (by decide)⟩

/-- C9 counterexample: a `request` call with an undefined (absent) ip first
falls back to the constructor's option, not to the loopback default: with
instance option ip = "8.8.8.8" and no call-site ip, the effective address is
"8.8.8.8", refuting "ip = '' or undefined becomes 127.0.0.1". -/
theorem c9_undefined_ip_uses_instance_option :
    effectiveIp (some "8.8.8.8") none = "8.8.8.8" ∧ "8.8.8.8" ≠ "127.0.0.1" := by decide

/-- C9 (amended): a falsy value supplied at the call site is never used as
given — ip = '' always becomes 127.0.0.1, port = 0 always becomes 7777 and
timeout = 0 always becomes 2000, regardless of the instance options, while a
truthy supplied value is kept; an absent (undefined) option instead falls
back to the constructor's option first, and the hard default applies only
when that fallback is itself absent or falsy. -/
theorem c9_falsy_options_defaulted (instIp : Option String) (instPort instT : Option Nat)
    (p t : Nat) (hp : p ≠ 0) (ht : t ≠ 0) :
    effectiveIp instIp (some "") = "127.0.0.1" ∧
    effectivePort instPort (some 0) = 7777 ∧
    effectiveTimeout instT (some 0) = 2000 ∧
    effectivePort instPort (some p) = p ∧
    effectiveTimeout instT (some t) = t ∧
    effectiveIp none none = "127.0.0.1" ∧
    effectivePort (some 0) none = 7777 ∧
    effectiveTimeout (some 0) none = 2000 ∧
    effectiveIp (some "") none = "127.0.0.1" := by
  refine ⟨?_, ?_, ?_, ?_, ?_, ?_, ?_, ?_, ?_⟩ <;>
    simp [effectiveIp, effectivePort, effectiveTimeout, mergeOpt, hp, ht]

theorem c9_falsy_options_defaulted_witness :
    effectiveIp (some "8.8.4.4") (some "") = "127.0.0.1" ∧
    effectivePort (some 9999) (some 0) = 7777 ∧
    effectiveTimeout (some 250) (some 0) = 2000 ∧
    effectivePort (some 9999) (some 8080) = 8080 ∧
    effectiveTimeout (some 250) (some 3000) = 3000 ∧
    effectiveIp none none = "127.0.0.1" ∧
    effectivePort (some 0) none = 7777 ∧
    effectiveTimeout (some 0) none = 2000 ∧
    effectiveIp (some "") none = "127.0.0.1" :=
  c9_falsy_options_defaulted (some "8.8.4.4") (some 9999) (some 250) 8080 3000
    (by decide) (by decide)

theorem readBytes_all (L : List Nat) :
    BitStream.readBytes ⟨L⟩ L.length = .ok (L, ⟨[]⟩) := by
  simpa using readBytes_exact L []

theorem bsReadCP1251_all (L : List Nat) :
    bsReadCP1251String ⟨L⟩ L.length = .ok (decodeWin1251String L, ⟨[]⟩) := by
  simpa using bsReadCP1251_exact L []

theorem readBytes_four (a b c d : Nat) (rest : List Nat) :
    BitStream.readBytes ⟨a :: b :: c :: d :: rest⟩ 4 = .ok ([a, b, c, d], ⟨rest⟩) := by
  unfold BitStream.readBytes
  rw [if_pos (by simp)]
  rfl

theorem decodePayload_append (op : Opcode) (hdr payload : List Nat) (hhdr : hdr.length = 11) :
    decodePayload op (hdr ++ payload) = decodeBody op ⟨payload⟩ := by
  unfold decodePayload
  have hs : (BitStream.mk (hdr ++ payload)).slice 11 = .ok ⟨payload⟩ := by
    unfold BitStream.slice
    rw [if_pos (by simp [List.length_append, hhdr])]
    rw [← hhdr, List.drop_left]
  rw [hs, exceptBind_ok]

theorem handleMessage_ok (op : Opcode) (hdr payload : List Nat) (res : QueryResult)
    (hhdr : hdr.length = 11) (h : decodeBody op ⟨payload⟩ = .ok res) :
    handleMessage op (hdr ++ payload) = (.ok res, true) := by
  unfold handleMessage
  rw [if_neg (by simp only [List.length_append, hhdr]; omega)]
  rw [decodePayload_append op hdr payload hhdr, h]

/-- C5: for a valid address (four numeric dotted-quad parts, each a byte) and
a 16-bit port, the request packet is exactly the 11 bytes "SAMP", the four
octets in order, the port's low byte, the port's high byte, and the opcode's
character code. -/
theorem c5_request_packet (ip : String) (port : Nat) (op : Opcode)
    (a1 a2 a3 a4 : String) (o1 o2 o3 o4 : Nat)
    (hsplit : jsSplitDot ip = [a1, a2, a3, a4])
    (h1 : jsNumber a1 = some o1) (h2 : jsNumber a2 = some o2)
    (h3 : jsNumber a3 = some o3) (h4 : jsNumber a4 = some o4)
    (hb1 : o1 < 256) (hb2 : o2 < 256) (hb3 : o3 < 256) (hb4 : o4 < 256)
    (hport : port < 65536) :
    buildRequest ip port op =
      some [83, 65, 77, 80, o1, o2, o3, o4, port % 256, port / 256, op.code] ∧
    [83, 65, 77, 80, o1, o2, o3, o4, port % 256, port / 256, op.code].length = 11 := by
  have hd : port / 256 % 256 = port / 256 := Nat.mod_eq_of_lt (by omega)
  constructor
  · unfold buildRequest
    rw [hsplit]
    simp only [jsNumbers, h1, h2, h3, h4]
    have hw : writeStringBytes "SAMP" = [83, 65, 77, 80] := rfl
    rw [hw, hd]
    rfl
  · rfl

theorem c5_request_packet_witness :
    buildRequest "1.2.3.4" 7777 Opcode.i =
      some [83, 65, 77, 80, 1, 2, 3, 4, 97, 30, 105] ∧
    [83, 65, 77, 80, 1, 2, 3, 4, 97, 30, 105].length = 11 :=
  c5_request_packet "1.2.3.4" 7777 Opcode.i "1" "2" "3" "4" 1 2 3 4
    (by decide) (by decide) (by decide) (by decide) (by decide)
    (by decide) (by decide) (by decide) (by decide) (by decide)

/-- C8: round-trip — encoding a request for a valid (address, port, opcode)
and parsing the bytes back as 4 raw bytes, four uint8s and three more uint8s
yields the same magic tag "SAMP", the same four octets, the same port low and
high bytes, and the same opcode character code that were written. -/
theorem c8_request_roundtrip (ip : String) (port : Nat) (op : Opcode)
    (a1 a2 a3 a4 : String) (o1 o2 o3 o4 : Nat)
    (hsplit : jsSplitDot ip = [a1, a2, a3, a4])
    (h1 : jsNumber a1 = some o1) (h2 : jsNumber a2 = some o2)
    (h3 : jsNumber a3 = some o3) (h4 : jsNumber a4 = some o4)
    (hb1 : o1 < 256) (hb2 : o2 < 256) (hb3 : o3 < 256) (hb4 : o4 < 256)
    (hport : port < 65536) :
    buildRequest ip port op =
      some ([83, 65, 77, 80] ++ [o1, o2, o3, o4] ++
        [port % 256, port / 256 % 256, op.code]) ∧
    parseRequest ([83, 65, 77, 80] ++ [o1, o2, o3, o4] ++
        [port % 256, port / 256 % 256, op.code]) =
      .ok ([83, 65, 77, 80], o1, o2, o3, o4, port % 256, port / 256 % 256, op.code) ∧
    decodeWin1251String [83, 65, 77, 80] = "SAMP" := by
  refine ⟨?_, ?_, by decide⟩
  · unfold buildRequest
    rw [hsplit]
    simp only [jsNumbers, h1, h2, h3, h4]
    rfl
  · simp only [List.cons_append, List.nil_append]
    unfold parseRequest
    simp only [readBytes_four, readUInt8_cons, exceptBind_ok]
    rfl

theorem c8_request_roundtrip_witness :
    buildRequest "1.2.3.4" 7777 Opcode.i =
      some ([83, 65, 77, 80] ++ [1, 2, 3, 4] ++ [97, 30, 105]) ∧
    parseRequest ([83, 65, 77, 80] ++ [1, 2, 3, 4] ++ [97, 30, 105]) =
      .ok ([83, 65, 77, 80], 1, 2, 3, 4, 97, 30, 105) ∧
    decodeWin1251String [83, 65, 77, 80] = "SAMP" :=
  c8_request_roundtrip "1.2.3.4" 7777 Opcode.i "1" "2" "3" "4" 1 2 3 4
    (by decide) (by decide) (by decide) (by decide) (by decide)
    (by decide) (by decide) (by decide) (by decide) (by decide)

/-- C7: the `i` decoder consumes, in order, one bool (closed), a uint16
(players), a uint16 (maxPlayers), and three text fields each preceded by its
own uint32 byte-length prefix (serverName, gameModeName, language): for every
reply built in that layout the handler resolves with exactly those values,
the text decoded as windows-1251. -/
theorem c7_info_reply_decoded (hdr : List Nat) (closedByte p m : Nat) (L1 L2 L3 : List Nat)
    (hhdr : hdr.length = 11) (hp : p < 65536) (hm : m < 65536)
    (h1 : L1.length < 4294967296) (h2 : L2.length < 4294967296)
    (h3 : L3.length < 4294967296) :
    handleMessage Opcode.i
      (hdr ++ [closedByte] ++ enc16 p ++ enc16 m ++
        enc32 L1.length ++ L1 ++ enc32 L2.length ++ L2 ++ enc32 L3.length ++ L3) =
      (.ok (.info ⟨decodeWin1251String L1, decodeWin1251String L2, p, m,
        decodeWin1251String L3, closedByte != 0⟩), true) := by
  simp only [List.append_assoc]
  apply handleMessage_ok Opcode.i hdr _ _ hhdr
  simp only [decodeBody, decodeInfo, List.cons_append, List.nil_append, readBoolean_cons,
    exceptBind_ok, readUInt16_enc16 p _ hp, readUInt16_enc16 m _ hm,
    readUInt32_enc32 L1.length _ h1, readUInt32_enc32 L2.length _ h2,
    readUInt32_enc32 L3.length _ h3, bsReadCP1251_exact, bsReadCP1251_all]
  rfl

theorem c7_info_reply_decoded_witness :
    handleMessage Opcode.i
      (List.replicate 11 0 ++ [0] ++ enc16 12 ++ enc16 32 ++
        enc32 4 ++ [84, 101, 115, 116] ++ enc32 2 ++ [68, 77] ++ enc32 2 ++ [69, 78]) =
      (.ok (.info ⟨"Test", "DM", 12, 32, "EN", false⟩), true) :=
  c7_info_reply_decoded (List.replicate 11 0) 0 12 32
    [84, 101, 115, 116] [68, 77] [69, 78]
    (by decide) (by decide) (by decide) (by decide) (by decide) (by decide)

theorem readUInt16_enc16_all (n : Nat) (h : n < 65536) :
    BitStream.readUInt16 ⟨enc16 n⟩ = .ok (n, ⟨[]⟩) := by
  simpa using readUInt16_enc16 n [] h

theorem decodeRulesLoop_one (acc : List (String × String)) (nL vL : List Nat) :
    decodeRulesLoop 1 acc ⟨nL.length :: (nL ++ (vL.length :: vL))⟩ =
      .ok (acc ++ [(decodeWin1251String nL, decodeWin1251String vL)], ⟨[]⟩) := by
  show decodeRulesLoop (0 + 1) acc _ = _
  simp only [decodeRulesLoop, readUInt8_cons, exceptBind_ok, readBytes_exact, readBytes_all,
    bsReadCP1251_exact, bsReadCP1251_all]

theorem decodeDetailedLoop_one (fuel pid s q : Nat) (nL : List Nat)
    (hf : 2 ≤ fuel) (hs : s < 4294967296) (hq : q < 4294967296) :
    decodeDetailedLoop fuel 0 []
      ⟨enc16 1 ++ (pid :: (nL.length :: (nL ++ (enc32 s ++ (enc32 q ++ enc16 0)))))⟩ =
      .ok ([⟨pid, decodeWin1251String nL, s, q⟩], ⟨[]⟩) := by
  obtain ⟨f, rfl⟩ : ∃ f, fuel = f + 1 + 1 := ⟨fuel - 2, by omega⟩
  simp only [decodeDetailedLoop, readUInt16_enc16 1 _ (by decide),
    readUInt16_enc16_all 0 (by decide), exceptBind_ok, readUInt8_cons, readBytes_exact,
    readUInt32_enc32 s _ hs, readUInt32_enc32 q _ hq,
    if_pos (show (0 : Nat) < 1 by decide),
    if_neg (show ¬ ((0 : Nat) + 1 < 0) by decide), List.nil_append]

theorem decodePlayersLoop_one (fuel s : Nat) (nL : List Nat)
    (hf : 2 ≤ fuel) (hs : s < 4294967296) :
    decodePlayersLoop fuel 0 []
      ⟨enc16 1 ++ (nL.length :: (nL ++ (enc32 s ++ enc16 0)))⟩ =
      .ok ([(decodeWin1251String nL, s)], ⟨[]⟩) := by
  obtain ⟨f, rfl⟩ : ∃ f, fuel = f + 1 + 1 := ⟨fuel - 2, by omega⟩
  simp only [decodePlayersLoop, readUInt16_enc16 1 _ (by decide),
    readUInt16_enc16_all 0 (by decide), exceptBind_ok, readUInt8_cons, readBytes_exact,
    readUInt32_enc32 s _ hs,
    if_pos (show (0 : Nat) < 1 by decide),
    if_neg (show ¬ ((0 : Nat) + 1 < 0) by decide), List.nil_append]

/-- C10: every length-prefixed text field of every reply, for all four
opcodes, is decoded as windows-1251 unconditionally: whatever the raw bytes
`L` and `V` are (including bytes 0x80–0xFF), the strings the handler resolves
with are exactly `decodeWin1251String` of those bytes — the `i` text fields
(serverName, gameModeName, language), the `r` rule names and values, and the
`d`/`c` player names.  The handler takes no codepage or decoding option at
all: its result is a function of the opcode and the datagram alone. -/
theorem c10_text_fields_win1251 (hdr L V : List Nat)
    (hhdr : hdr.length = 11) (hL : L.length < 256) (hV : V.length < 256) :
    handleMessage Opcode.i
      (hdr ++ [0] ++ enc16 0 ++ enc16 0 ++
        enc32 L.length ++ L ++ enc32 V.length ++ V ++ enc32 L.length ++ L) =
      (.ok (.info ⟨decodeWin1251String L, decodeWin1251String V, 0, 0,
        decodeWin1251String L, false⟩), true) ∧
    handleMessage Opcode.r (hdr ++ enc16 1 ++ [L.length] ++ L ++ [V.length] ++ V) =
      (.ok (.rules [(decodeWin1251String L, decodeWin1251String V)]), true) ∧
    handleMessage Opcode.d
      (hdr ++ enc16 1 ++ [7] ++ [L.length] ++ L ++ enc32 5 ++ enc32 9 ++ enc16 0) =
      (.ok (.playersDetailed [⟨7, decodeWin1251String L, 5, 9⟩]), true) ∧
    handleMessage Opcode.c (hdr ++ enc16 1 ++ [L.length] ++ L ++ enc32 5 ++ enc16 0) =
      (.ok (.players [(decodeWin1251String L, 5)]), true) := by
  refine ⟨?_, ?_, ?_, ?_⟩
  · simp only [List.append_assoc]
    apply handleMessage_ok Opcode.i hdr _ _ hhdr
    simp only [decodeBody, decodeInfo, List.cons_append, List.nil_append, readBoolean_cons,
      exceptBind_ok, readUInt16_enc16 0 _ (by decide),
      readUInt32_enc32 L.length _ (by omega), readUInt32_enc32 V.length _ (by omega),
      bsReadCP1251_exact, bsReadCP1251_all]
    rfl
  · simp only [List.append_assoc]
    apply handleMessage_ok Opcode.r hdr _ _ hhdr
    simp only [decodeBody, decodeRules, List.cons_append, List.nil_append,
      readUInt16_enc16 1 _ (by decide), exceptBind_ok, decodeRulesLoop_one]
    rfl
  · simp only [List.append_assoc]
    apply handleMessage_ok Opcode.d hdr _ _ hhdr
    simp only [decodeBody, decodeDetailed, List.cons_append, List.nil_append]
    rw [decodeDetailedLoop_one]
    · rfl
    · simp only [List.length_append, List.length_cons, List.length_nil, enc16, enc32]
      omega
    · decide
    · decide
  · simp only [List.append_assoc]
    apply handleMessage_ok Opcode.c hdr _ _ hhdr
    simp only [decodeBody, decodePlayers, List.cons_append, List.nil_append]
    rw [decodePlayersLoop_one]
    · rfl
    · simp only [List.length_append, List.length_cons, List.length_nil, enc16, enc32]
      omega
    · decide

theorem c10_text_fields_win1251_witness :
    handleMessage Opcode.i
      (List.replicate 11 0 ++ [0] ++ enc16 0 ++ enc16 0 ++
        enc32 2 ++ [192, 193] ++ enc32 1 ++ [224] ++ enc32 2 ++ [192, 193]) =
      (.ok (.info ⟨"АБ", "а", 0, 0, "АБ", false⟩), true) ∧
    handleMessage Opcode.r
      (List.replicate 11 0 ++ enc16 1 ++ [2] ++ [192, 193] ++ [1] ++ [224]) =
      (.ok (.rules [("АБ", "а")]), true) ∧
    handleMessage Opcode.d
      (List.replicate 11 0 ++ enc16 1 ++ [7] ++ [2] ++ [192, 193] ++
        enc32 5 ++ enc32 9 ++ enc16 0) =
      (.ok (.playersDetailed [⟨7, "АБ", 5, 9⟩]), true) ∧
    handleMessage Opcode.c
      (List.replicate 11 0 ++ enc16 1 ++ [2] ++ [192, 193] ++ enc32 5 ++ enc16 0) =
      (.ok (.players [("АБ", 5)]), true) :=
  c10_text_fields_win1251 (List.replicate 11 0) [192, 193] [224]
    (by decide) (by decide) (by decide)
